import Mathlib

/-!
Shallow embedding of `src/mongo/db/query/optimizer/explain.h`, class
`UserFacingExplain`: the user-facing explain serializer for an optimized
physical plan tree (ABT) together with its identity-keyed node-property map.

Modelling conventions:
* A plan-tree node carries a `nid : Nat` field modelling the node's C++
  address (its identity), used only as the key of `NodeToGroupPropsMap`
  (C++ `opt::unordered_map<const Node*, NodeProps>`).  ABT structural
  equality (`operator==`) compares stored fields and never addresses, so
  the model's structural equality `abtEq` ignores `nid`.
* Expressions (the filter predicate, the evaluation projection) are only
  ever compared against the constant-Nothing sentinel (`Constant::nothing()`)
  and are otherwise opaque to this header, so they are modelled by a type
  with the sentinel and an arbitrary tag of other expressions.
* The many ABT node variants that `UserFacingExplain::walk` has no overload
  for all hit the variadic default overload (tasserted 8075606).  The model
  keeps the two such variants that `isEOFPlan` inspects (`LimitSkipNode`,
  `CoScanNode`) and folds every other one into `UnsupportedNode`.
* `tassert`/`tasserted` is a fatal, non-recoverable abort; it is modelled as
  `Except.error code`.  A BSON document is an ordered field list; the cost
  (a C++ `double` that explain only copies, never computes with) is carried
  abstractly as an `Int`.
* `isEOFPlan` runs `node.cast<RootNode>()` and dereferences the result with
  no null check, so a non-`RootNode` argument is a null-pointer dereference
  (undefined behavior), modelled as the `none` outcome.
-/

namespace MongoOpt

/-- Scan order attribute of a physical scan node (C++ `ScanOrder`). -/
inductive ScanOrder where
  | Forward
  | Reverse
  | Random
deriving DecidableEq, Repr

/-- ABT expressions as seen by this header: the `Constant::nothing()`
sentinel, or any other expression (opaque, distinguished by a tag). -/
inductive ABTExpr where
  | constantNothing
  | otherExpr (tag : Nat)
deriving DecidableEq, Repr

/-- Plan-tree nodes (the ABT node variants relevant to `explain.h`).
`nid` models the node's identity (its C++ address), not a stored field. -/
inductive ABT where
  | RootNode (nid : Nat) (child : ABT)
  | FilterNode (nid : Nat) (pred : ABTExpr) (child : ABT)
  | EvaluationNode (nid : Nat) (projection : ABTExpr) (child : ABT)
  | PhysicalScanNode (nid : Nat) (scanOrder : ScanOrder)
  | LimitSkipNode (nid : Nat) (limit skip : Int) (child : ABT)
  | CoScanNode (nid : Nat)
  | UnsupportedNode (nid : Nat) (tag : Nat)
deriving DecidableEq, Repr

/-- The identity (modelled address) of a node, used as the property-map key. -/
def ABT.nid : ABT → Nat
  | .RootNode n _ => n
  | .FilterNode n _ _ => n
  | .EvaluationNode n _ _ => n
  | .PhysicalScanNode n _ => n
  | .LimitSkipNode n _ _ _ => n
  | .CoScanNode n => n
  | .UnsupportedNode n _ => n

/-- The per-node property record (C++ `NodeProps`): the fields `explain.h`
reads are `_planNodeId` and `_cost` (the cost `double` is carried
abstractly, since explain only copies it into the output). -/
structure NodeProps where
  planNodeId : Int
  cost : Int
deriving DecidableEq, Repr

/-- C++ `NodeToGroupPropsMap`: identity-keyed map from node to properties. -/
abbrev NodeToGroupPropsMap := Nat → Option NodeProps

/-- ABT structural equality (C++ `ABT::operator==`): compares variants and
stored fields recursively; node identity (address) is not a stored field. -/
def abtEq : ABT → ABT → Bool
  | .RootNode _ c1, .RootNode _ c2 => abtEq c1 c2
  | .FilterNode _ p1 c1, .FilterNode _ p2 c2 => p1 == p2 && abtEq c1 c2
  | .EvaluationNode _ p1 c1, .EvaluationNode _ p2 c2 => p1 == p2 && abtEq c1 c2
  | .PhysicalScanNode _ o1, .PhysicalScanNode _ o2 => o1 == o2
  | .LimitSkipNode _ l1 s1 c1, .LimitSkipNode _ l2 s2 c2 =>
      l1 == l2 && s1 == s2 && abtEq c1 c2
  | .CoScanNode _, .CoScanNode _ => true
  | .UnsupportedNode _ t1, .UnsupportedNode _ t2 => t1 == t2
  | _, _ => false

/-- The canonical tail built inside `isEOFPlan`:
`make<LimitSkipNode>(properties::LimitSkipRequirement{0, 0}, make<CoScanNode>())`
(a fresh value; its identity is irrelevant to structural equality). -/
def eofChild : ABT := ABT.LimitSkipNode 0 0 0 (ABT.CoScanNode 0)

/-- `UserFacingExplain::isEOFPlan`.  The function casts its argument to
`RootNode` and dereferences without a null check ("This function expects the
full ABT to be the argument. So we must have a RootNode."), so a non-Root
argument is undefined behavior, modelled as `none`. -/
def isEOFPlan : ABT → Option Bool
  | .RootNode _ child =>
    match child with
    | .EvaluationNode _ projection echild =>
      if projection != ABTExpr.constantNothing then
        -- The EvaluationNode of an EOF plan will have Nothing as the projection.
        some false
      else
        some (abtEq echild eofChild)
    | _ =>
      -- An EOF plan will have an EvaluationNode as the child of the RootNode.
      some false
  | _ => none

/-- One BSON field: name plus a string / int / double / sub-document value
(the only `append` shapes `explain.h` uses). -/
inductive BSONField where
  | str (name value : String)
  | int (name : String) (value : Int)
  | dbl (name : String) (value : Int)
  | obj (name : String) (value : List BSONField)
deriving Repr

/-- A BSON document: an ordered list of fields. -/
abbrev BSONObj := List BSONField

/-- Direction string emitted by the `switch (node.getScanOrder())` in the
`PhysicalScanNode` overload of `walk`. -/
def scanDirString : ScanOrder → String
  | .Forward => "forward"
  | .Reverse => "backward"
  | .Random => "random"

/-- `UserFacingExplain::generateExplain` = `algebra::walk<false>` dispatching
to the `walk` overloads.  Each overload looks the node up in `_nodeMap`
(tassert 807560x on a miss), appends its fields in source order, and recurses
into its input child under `"inputStage"`; unhandled variants hit the default
overload, tasserted 8075606. -/
def generateExplain (m : NodeToGroupPropsMap) : ABT → Except Nat BSONObj
  | ABT.RootNode nid child =>
    match m nid with
    | none => Except.error 8075600
    | some props =>
      match generateExplain m child with
      | Except.error c => Except.error c
      | Except.ok inner =>
        Except.ok [BSONField.str "stage" "ROOT",
                   BSONField.str "projections" "<todo>",
                   BSONField.str "cardinalityEstimate" "<todo>",
                   BSONField.dbl "costEstimate" props.cost,
                   BSONField.obj "inputStage" inner]
  | ABT.FilterNode nid _pred child =>
    match m nid with
    | none => Except.error 8075601
    | some props =>
      match generateExplain m child with
      | Except.error c => Except.error c
      | Except.ok inner =>
        Except.ok [BSONField.str "stage" "FILTER",
                   BSONField.int "planNodeId" props.planNodeId,
                   BSONField.str "filter" "<todo>",
                   BSONField.str "cardinalityEstimate" "<todo>",
                   BSONField.obj "inputStage" inner]
  | ABT.EvaluationNode nid _proj child =>
    match m nid with
    | none => Except.error 8075602
    | some props =>
      match generateExplain m child with
      | Except.error c => Except.error c
      | Except.ok inner =>
        Except.ok [BSONField.str "stage" "EVALUATION",
                   BSONField.int "planNodeId" props.planNodeId,
                   BSONField.str "projections" "<todo>",
                   BSONField.str "cardinalityEstimate" "<todo>",
                   BSONField.obj "inputStage" inner]
  | ABT.PhysicalScanNode nid ord =>
    match m nid with
    | none => Except.error 8075603
    | some props =>
      Except.ok [BSONField.str "stage" "COLLSCAN",
                 BSONField.int "planNodeId" props.planNodeId,
                 BSONField.str "direction" (scanDirString ord),
                 BSONField.str "projections" "<todo>",
                 BSONField.str "cardinalityEstimate" "<todo>"]
  | ABT.LimitSkipNode _ _ _ _ => Except.error 8075606
  | ABT.CoScanNode _ => Except.error 8075606
  | ABT.UnsupportedNode _ _ => Except.error 8075606

/-- `UserFacingExplain::generateEOFPlan`: look the argument node itself up in
`_nodeMap` (tassert 8075605 on a miss) and emit the two-field EOF document. -/
def generateEOFPlan (m : NodeToGroupPropsMap) (node : ABT) : Except Nat BSONObj :=
  match m node.nid with
  | none => Except.error 8075605
  | some props =>
    Except.ok [BSONField.str "stage" "EOF",
               BSONField.int "planNodeId" props.planNodeId]

/-- Outcome of `UserFacingExplain::explain`: a document, a fatal tassert
(with its code), or undefined behavior (the unchecked cast in `isEOFPlan`). -/
inductive ExplainResult where
  | ok (doc : BSONObj)
  | fatal (code : Nat)
  | ub

/-- The non-EOF path of `UserFacingExplain::explain`: run the walk, then
tassert 8075604 if the resulting document is empty. -/
def explainWalkPath (m : NodeToGroupPropsMap) (node : ABT) : ExplainResult :=
  match generateExplain m node with
  | Except.error c => ExplainResult.fatal c
  | Except.ok doc =>
    if doc.isEmpty then ExplainResult.fatal 8075604 else ExplainResult.ok doc

/-- `UserFacingExplain::explain`: short-circuit to the EOF document when
`isEOFPlan` holds, otherwise walk the full tree. -/
def explain (m : NodeToGroupPropsMap) (node : ABT) : ExplainResult :=
  match isEOFPlan node with
  | none => ExplainResult.ub
  | some true =>
    match generateEOFPlan m node with
    | Except.error c => ExplainResult.fatal c
    | Except.ok doc => ExplainResult.ok doc
  | some false => explainWalkPath m node

/-- The field name of one BSON field. -/
def fieldName : BSONField → String
  | .str n _ => n
  | .int n _ => n
  | .dbl n _ => n
  | .obj n _ => n

/-- Whether a document contains a top-level field of the given name. -/
def hasField (name : String) (doc : BSONObj) : Bool :=
  doc.any fun f => fieldName f == name

/-- The first `"inputStage"` sub-document of a document, when present. -/
def findInput : BSONObj → Option BSONObj
  | [] => none
  | BSONField.obj n sub :: rest =>
      if n = "inputStage" then some sub else findInput rest
  | _ :: rest => findInput rest

/-- Descend `k` levels of nested `"inputStage"` sub-documents. -/
def descend : Nat → BSONObj → BSONObj
  | 0, doc => doc
  | k + 1, doc =>
    match findInput doc with
    | some sub => descend k sub
    | none => doc

/-- One intermediate stage of a single-child chain below the Root. -/
inductive MidStage where
  | filterStage (nid : Nat) (pred : ABTExpr)
  | evalStage (nid : Nat) (projection : ABTExpr)
deriving DecidableEq, Repr

/-- The identity of a chain stage's node. -/
def midNid : MidStage → Nat
  | .filterStage n _ => n
  | .evalStage n _ => n

/-- Wrap a leaf in Filter/Evaluation stages (outermost first). -/
def buildChain : List MidStage → ABT → ABT
  | [], leaf => leaf
  | MidStage.filterStage n p :: rest, leaf => ABT.FilterNode n p (buildChain rest leaf)
  | MidStage.evalStage n p :: rest, leaf => ABT.EvaluationNode n p (buildChain rest leaf)

/-- Shape predicate written from the spec's words (§4.2), for comparison with
the code's `isEOFPlan`: the canonical empty-result shape
Root → Project(nothing sentinel) → Limit-Skip(limit 0, skip 0) → Generate-Empty. -/
def specCanonicalEOFShape : ABT → Bool
  | ABT.RootNode _ (ABT.EvaluationNode _ projection
      (ABT.LimitSkipNode _ l s (ABT.CoScanNode _))) =>
      projection == ABTExpr.constantNothing && l == 0 && s == 0
  | _ => false

/-- Every node of the tree is a variant `walk` has a dedicated overload for
(Root, Filter, Evaluation, Physical-Scan). -/
def allSupported : ABT → Bool
  | .RootNode _ c => allSupported c
  | .FilterNode _ _ c => allSupported c
  | .EvaluationNode _ _ c => allSupported c
  | .PhysicalScanNode _ _ => true
  | _ => false

/-- Every node of the tree has a record in the property map. -/
def allHaveProps (m : NodeToGroupPropsMap) : ABT → Bool
  | .RootNode n c => (m n).isSome && allHaveProps m c
  | .FilterNode n _ c => (m n).isSome && allHaveProps m c
  | .EvaluationNode n _ c => (m n).isSome && allHaveProps m c
  | .PhysicalScanNode n _ => (m n).isSome
  | .LimitSkipNode n _ _ c => (m n).isSome && allHaveProps m c
  | .CoScanNode n => (m n).isSome
  | .UnsupportedNode n _ => (m n).isSome

/-- The top node's variant has a dedicated `walk` overload. -/
def headSupported : ABT → Bool
  | .RootNode _ _ => true
  | .FilterNode _ _ _ => true
  | .EvaluationNode _ _ _ => true
  | .PhysicalScanNode _ _ => true
  | _ => false

/-- A concrete property map for witnesses: records for identities 0–9. -/
def demoMap : NodeToGroupPropsMap :=
  fun n => if n ≤ 9 then some ⟨(n : Int), (n : Int) * 10⟩ else none

/-- A concrete property map with a record only for identity 1. -/
def rootOnlyMap : NodeToGroupPropsMap :=
  fun n => if n = 1 then some ⟨1, 125⟩ else none

/-- The empty property map. -/
def emptyMap : NodeToGroupPropsMap := fun _ => none

/-! ## Shared helper lemmas -/

/-- On a Root-topped tree, `isEOFPlan` computes exactly the spec's canonical
empty-result shape predicate. -/
theorem isEOFPlan_root_eq_shape (rnid : Nat) (child : ABT) :
    isEOFPlan (ABT.RootNode rnid child) =
      some (specCanonicalEOFShape (ABT.RootNode rnid child)) := by
  cases child
  case EvaluationNode enid projection echild =>
    cases projection <;> cases echild <;>
      first
        | rfl
        | (rename_i lnid l s lchild
           cases lchild <;>
             simp [isEOFPlan, specCanonicalEOFShape, abtEq, eofChild])
  all_goals rfl

/-- Every successful walk produces a non-empty document: each `walk` overload
begins by appending the stage-name field. -/
theorem generateExplain_ok_ne_nil (m : NodeToGroupPropsMap) (t : ABT)
    (doc : BSONObj) (h : generateExplain m t = Except.ok doc) : doc ≠ [] := by
  intro hnil
  subst hnil
  cases t <;> simp only [generateExplain] at h <;>
    (try split at h) <;> (try split at h) <;> simp_all

@[simp] theorem findInput_str (n v : String) (rest : BSONObj) :
    findInput (BSONField.str n v :: rest) = findInput rest := rfl

@[simp] theorem findInput_int (n : String) (v : Int) (rest : BSONObj) :
    findInput (BSONField.int n v :: rest) = findInput rest := rfl

@[simp] theorem findInput_dbl (n : String) (v : Int) (rest : BSONObj) :
    findInput (BSONField.dbl n v :: rest) = findInput rest := rfl

@[simp] theorem findInput_input (sub rest : BSONObj) :
    findInput (BSONField.obj "inputStage" sub :: rest) = some sub := by
  simp [findInput]

@[simp] theorem descend_zero (doc : BSONObj) : descend 0 doc = doc := rfl

theorem descend_succ_of_findInput (k : Nat) (doc sub : BSONObj)
    (h : findInput doc = some sub) : descend (k + 1) doc = descend k sub := by
  simp [descend, h]

/-- The walk over a Filter/Evaluation chain terminating in a Physical-Scan:
it succeeds, each level (strictly above the scan) has an `"inputStage"`
sub-document, and descending through all of them lands on the scan stage. -/
theorem chain_walk (m : NodeToGroupPropsMap) (snid : Nat) (ord : ScanOrder)
    (sp : NodeProps) (hs : m snid = some sp) :
    ∀ mids : List MidStage, (∀ s ∈ mids, (m (midNid s)).isSome) →
    ∃ doc, generateExplain m (buildChain mids (ABT.PhysicalScanNode snid ord)) =
        Except.ok doc ∧
      (∀ k, k < mids.length → (findInput (descend k doc)).isSome = true) ∧
      descend mids.length doc =
        [BSONField.str "stage" "COLLSCAN",
         BSONField.int "planNodeId" sp.planNodeId,
         BSONField.str "direction" (scanDirString ord),
         BSONField.str "projections" "<todo>",
         BSONField.str "cardinalityEstimate" "<todo>"] := by
  intro mids
  induction mids with
  | nil =>
    intro _
    refine ⟨[BSONField.str "stage" "COLLSCAN",
             BSONField.int "planNodeId" sp.planNodeId,
             BSONField.str "direction" (scanDirString ord),
             BSONField.str "projections" "<todo>",
             BSONField.str "cardinalityEstimate" "<todo>"], ?_, ?_, ?_⟩
    · simp [buildChain, generateExplain, hs]
    · intro k hk
      exact absurd hk (Nat.not_lt_zero k)
    · rfl
  | cons s rest ih =>
    intro hmem
    obtain ⟨doc, hdoc, hfind, hlast⟩ :=
      ih (fun x hx => hmem x (List.mem_cons_of_mem s hx))
    have hs0 : (m (midNid s)).isSome := hmem s (List.mem_cons_self s rest)
    obtain ⟨props, hp⟩ := Option.isSome_iff_exists.mp hs0
    cases s with
    | filterStage n p =>
      have hp' : m n = some props := hp
      refine ⟨[BSONField.str "stage" "FILTER",
               BSONField.int "planNodeId" props.planNodeId,
               BSONField.str "filter" "<todo>",
               BSONField.str "cardinalityEstimate" "<todo>",
               BSONField.obj "inputStage" doc], ?_, ?_, ?_⟩
      · simp [buildChain, generateExplain, hp', hdoc]
      · intro k hk
        cases k with
        | zero => simp
        | succ j =>
          rw [descend_succ_of_findInput j _ doc (by simp)]
          exact hfind j (Nat.lt_of_succ_lt_succ (by simpa using hk))
      · simp only [List.length_cons]
        rw [descend_succ_of_findInput rest.length _ doc (by simp)]
        exact hlast
    | evalStage n p =>
      have hp' : m n = some props := hp
      refine ⟨[BSONField.str "stage" "EVALUATION",
               BSONField.int "planNodeId" props.planNodeId,
               BSONField.str "projections" "<todo>",
               BSONField.str "cardinalityEstimate" "<todo>",
               BSONField.obj "inputStage" doc], ?_, ?_, ?_⟩
      · simp [buildChain, generateExplain, hp', hdoc]
      · intro k hk
        cases k with
        | zero => simp
        | succ j =>
          rw [descend_succ_of_findInput j _ doc (by simp)]
          exact hfind j (Nat.lt_of_succ_lt_succ (by simpa using hk))
      · simp only [List.length_cons]
        rw [descend_succ_of_findInput rest.length _ doc (by simp)]
        exact hlast

/-- The walk over a chain whose spine reaches a node with no dedicated
overload: every stage above it resolves its properties, then the dispatch
hits the variadic default case, tasserted 8075606. -/
theorem chain_unsupported (m : NodeToGroupPropsMap) (u : ABT)
    (hu : headSupported u = false) :
    ∀ mids : List MidStage, (∀ s ∈ mids, (m (midNid s)).isSome) →
      generateExplain m (buildChain mids u) = Except.error 8075606 := by
  intro mids
  induction mids with
  | nil =>
    intro _
    cases u <;> simp_all [headSupported, buildChain, generateExplain]
  | cons s rest ih =>
    intro hmem
    have ih' := ih (fun x hx => hmem x (List.mem_cons_of_mem s hx))
    have hs0 : (m (midNid s)).isSome := hmem s (List.mem_cons_self s rest)
    obtain ⟨props, hp⟩ := Option.isSome_iff_exists.mp hs0
    cases s with
    | filterStage n p =>
      have hp' : m n = some props := hp
      simp [buildChain, generateExplain, hp', ih']
    | evalStage n p =>
      have hp' : m n = some props := hp
      simp [buildChain, generateExplain, hp', ih']

/-! ## Claim theorems -/

/-- C3: for every tree of the exact canonical shape
Root → Evaluation(nothing sentinel) → Limit-Skip(0, 0) → Generate-Empty,
`isEOFPlan` returns true and `explain` returns the single-stage document with
exactly the stage-name field `"EOF"` and the `planNodeId` taken from the Root
node's property record, with no nested input stage. -/
theorem c3_eof_short_circuit (m : NodeToGroupPropsMap) (rnid enid lnid cnid : Nat)
    (props : NodeProps) (h : m rnid = some props) :
    isEOFPlan (ABT.RootNode rnid (ABT.EvaluationNode enid ABTExpr.constantNothing
      (ABT.LimitSkipNode lnid 0 0 (ABT.CoScanNode cnid)))) = some true ∧
    explain m (ABT.RootNode rnid (ABT.EvaluationNode enid ABTExpr.constantNothing
      (ABT.LimitSkipNode lnid 0 0 (ABT.CoScanNode cnid)))) =
      ExplainResult.ok [BSONField.str "stage" "EOF",
                        BSONField.int "planNodeId" props.planNodeId] := by
  have hEOF : isEOFPlan (ABT.RootNode rnid (ABT.EvaluationNode enid
      ABTExpr.constantNothing (ABT.LimitSkipNode lnid 0 0 (ABT.CoScanNode cnid)))) =
      some true := by
    simp [isEOFPlan, abtEq, eofChild]
  refine ⟨hEOF, ?_⟩
  simp [explain, hEOF, generateEOFPlan, ABT.nid, h]

/-- C3 witness: the EOF short-circuit at a concrete tree and map. -/
theorem c3_witness :
    isEOFPlan (ABT.RootNode 1 (ABT.EvaluationNode 2 ABTExpr.constantNothing
      (ABT.LimitSkipNode 3 0 0 (ABT.CoScanNode 4)))) = some true ∧
    explain demoMap (ABT.RootNode 1 (ABT.EvaluationNode 2 ABTExpr.constantNothing
      (ABT.LimitSkipNode 3 0 0 (ABT.CoScanNode 4)))) =
      ExplainResult.ok [BSONField.str "stage" "EOF",
                        BSONField.int "planNodeId" (1 : Int)] :=
  c3_eof_short_circuit demoMap 1 2 3 4 ⟨1, 10⟩ rfl

/-- C5: every rendered Physical-Scan stage carries a direction field whose
value is determined one-to-one by the scan order: Forward ↦ "forward",
Reverse ↦ "backward", Random ↦ "random"; the mapping is injective and its
range is exactly those three strings. -/
theorem c5_scan_direction (m : NodeToGroupPropsMap) (nid : Nat) (ord : ScanOrder)
    (props : NodeProps) (h : m nid = some props) :
    generateExplain m (ABT.PhysicalScanNode nid ord) =
      Except.ok [BSONField.str "stage" "COLLSCAN",
                 BSONField.int "planNodeId" props.planNodeId,
                 BSONField.str "direction" (scanDirString ord),
                 BSONField.str "projections" "<todo>",
                 BSONField.str "cardinalityEstimate" "<todo>"] ∧
    scanDirString ScanOrder.Forward = "forward" ∧
    scanDirString ScanOrder.Reverse = "backward" ∧
    scanDirString ScanOrder.Random = "random" ∧
    (∀ o1 o2 : ScanOrder, scanDirString o1 = scanDirString o2 → o1 = o2) ∧
    (∀ o : ScanOrder, scanDirString o = "forward" ∨ scanDirString o = "backward" ∨
      scanDirString o = "random") := by
  refine ⟨by simp [generateExplain, h], rfl, rfl, rfl, ?_, ?_⟩
  · intro o1 o2 hh
    cases o1 <;> cases o2 <;> simp_all [scanDirString]
  · intro o
    cases o <;> simp [scanDirString]

/-- C5 witness: a concrete reverse scan. -/
theorem c5_witness :
    generateExplain demoMap (ABT.PhysicalScanNode 3 ScanOrder.Reverse) =
      Except.ok [BSONField.str "stage" "COLLSCAN",
                 BSONField.int "planNodeId" (3 : Int),
                 BSONField.str "direction" (scanDirString ScanOrder.Reverse),
                 BSONField.str "projections" "<todo>",
                 BSONField.str "cardinalityEstimate" "<todo>"] ∧
    scanDirString ScanOrder.Forward = "forward" ∧
    scanDirString ScanOrder.Reverse = "backward" ∧
    scanDirString ScanOrder.Random = "random" ∧
    (∀ o1 o2 : ScanOrder, scanDirString o1 = scanDirString o2 → o1 = o2) ∧
    (∀ o : ScanOrder, scanDirString o = "forward" ∨ scanDirString o = "backward" ∨
      scanDirString o = "random") :=
  c5_scan_direction demoMap 3 ScanOrder.Reverse ⟨3, 30⟩ rfl

/-- C9: `explain` is deterministic — two invocations of the document-producing
operation on the same unmodified tree and property map yield the same result
(same fields, same values, same order). -/
theorem c9_deterministic (m : NodeToGroupPropsMap) (node : ABT)
    (r1 r2 : ExplainResult) (h1 : explain m node = r1) (h2 : explain m node = r2) :
    r1 = r2 := by
  rw [← h1, ← h2]

/-- C9 witness: two invocations at a concrete tree and map. -/
theorem c9_witness :
    explain demoMap (ABT.RootNode 1 (ABT.PhysicalScanNode 2 ScanOrder.Forward)) =
      explain demoMap (ABT.RootNode 1 (ABT.PhysicalScanNode 2 ScanOrder.Forward)) :=
  c9_deterministic demoMap (ABT.RootNode 1 (ABT.PhysicalScanNode 2 ScanOrder.Forward))
    _ _ rfl rfl

/-- C10: on the EOF short-circuit path only the Root node's record is looked
up: for every tree recognized as the canonical shape, if the Root's identity
has a record then `explain` returns the EOF document — whatever the map says
about the inner nodes — and if the Root's identity has no record the result
is the missing-property fatal condition 8075605. -/
theorem c10_eof_only_root_lookup (m : NodeToGroupPropsMap) (node : ABT)
    (h : isEOFPlan node = some true) :
    (∀ props, m node.nid = some props →
       explain m node = ExplainResult.ok [BSONField.str "stage" "EOF",
         BSONField.int "planNodeId" props.planNodeId]) ∧
    (m node.nid = none → explain m node = ExplainResult.fatal 8075605) := by
  constructor
  · intro props hp
    simp [explain, h, generateEOFPlan, hp]
  · intro hp
    simp [explain, h, generateEOFPlan, hp]

/-- C10 witness: a concrete canonical tree over a map that has a record only
for the Root's identity; the inner Evaluation, Limit-Skip and Generate-Empty
identities (2, 3, 4) have none, yet explain succeeds. -/
theorem c10_witness :
    (rootOnlyMap 2 = none ∧ rootOnlyMap 3 = none ∧ rootOnlyMap 4 = none) ∧
    explain rootOnlyMap (ABT.RootNode 1 (ABT.EvaluationNode 2 ABTExpr.constantNothing
      (ABT.LimitSkipNode 3 0 0 (ABT.CoScanNode 4)))) =
      ExplainResult.ok [BSONField.str "stage" "EOF",
                        BSONField.int "planNodeId" (1 : Int)] :=
  ⟨⟨rfl, rfl, rfl⟩,
    (c10_eof_only_root_lookup rootOnlyMap
      (ABT.RootNode 1 (ABT.EvaluationNode 2 ABTExpr.constantNothing
        (ABT.LimitSkipNode 3 0 0 (ABT.CoScanNode 4))))
      (by simp [isEOFPlan, abtEq, eofChild])).1 ⟨1, 125⟩ rfl⟩

/-- C1 (amended): for every input tree whose top node is a Root and that
deviates from the canonical empty-result shape — a deviation in the inner
node types, in the limit/skip bound values, or in the projection expression —
`isEOFPlan` returns false and `explain` falls through to the full tree
traversal (the walk-then-empty-check path). -/
theorem c1_deviation_falls_through (m : NodeToGroupPropsMap) (rnid : Nat)
    (child : ABT) (h : specCanonicalEOFShape (ABT.RootNode rnid child) = false) :
    isEOFPlan (ABT.RootNode rnid child) = some false ∧
    explain m (ABT.RootNode rnid child) =
      explainWalkPath m (ABT.RootNode rnid child) := by
  have hh := isEOFPlan_root_eq_shape rnid child
  rw [h] at hh
  exact ⟨hh, by simp [explain, hh]⟩

/-- C1 counterexample: the claim quantifies over every input tree, including
a deviation in the node types themselves; but on a tree whose top node is not
a Root, `isEOFPlan` does not return false — it dereferences the unchecked
`cast<RootNode>` result (undefined behavior, the `none` outcome). -/
theorem c1_cex :
    isEOFPlan (ABT.PhysicalScanNode 7 ScanOrder.Forward) = none ∧
    isEOFPlan (ABT.PhysicalScanNode 7 ScanOrder.Forward) ≠ some false :=
  ⟨rfl, by decide⟩

/-- C1 witness: a Root-topped tree deviating only in the skip bound
(Limit-Skip(0, 1)) is rejected and falls through to the walk. -/
theorem c1_witness :
    isEOFPlan (ABT.RootNode 1 (ABT.EvaluationNode 2 ABTExpr.constantNothing
      (ABT.LimitSkipNode 3 0 1 (ABT.CoScanNode 4)))) = some false ∧
    explain demoMap (ABT.RootNode 1 (ABT.EvaluationNode 2 ABTExpr.constantNothing
      (ABT.LimitSkipNode 3 0 1 (ABT.CoScanNode 4)))) =
      explainWalkPath demoMap (ABT.RootNode 1 (ABT.EvaluationNode 2
        ABTExpr.constantNothing (ABT.LimitSkipNode 3 0 1 (ABT.CoScanNode 4)))) :=
  c1_deviation_falls_through demoMap 1
    (ABT.EvaluationNode 2 ABTExpr.constantNothing
      (ABT.LimitSkipNode 3 0 1 (ABT.CoScanNode 4))) (by decide)

/-- C2 (amended): each stage sub-document contains exactly, and in this
order: Root — stage "ROOT", projections placeholder, cardinality-estimate
placeholder, cost estimate, then the nested input stage; Filter — stage
"FILTER", plan-node id, filter placeholder, cardinality-estimate placeholder,
then the nested input stage; Evaluation — stage "EVALUATION", plan-node id,
projections placeholder, cardinality-estimate placeholder, then the nested
input stage; Physical-Scan — stage "COLLSCAN", plan-node id, direction,
projections placeholder, cardinality-estimate placeholder. -/
theorem c2_stage_fields (m : NodeToGroupPropsMap) (nid : Nat) (props : NodeProps)
    (h : m nid = some props) :
    (∀ child inner, generateExplain m child = Except.ok inner →
      generateExplain m (ABT.RootNode nid child) =
        Except.ok [BSONField.str "stage" "ROOT",
                   BSONField.str "projections" "<todo>",
                   BSONField.str "cardinalityEstimate" "<todo>",
                   BSONField.dbl "costEstimate" props.cost,
                   BSONField.obj "inputStage" inner]) ∧
    (∀ pred child inner, generateExplain m child = Except.ok inner →
      generateExplain m (ABT.FilterNode nid pred child) =
        Except.ok [BSONField.str "stage" "FILTER",
                   BSONField.int "planNodeId" props.planNodeId,
                   BSONField.str "filter" "<todo>",
                   BSONField.str "cardinalityEstimate" "<todo>",
                   BSONField.obj "inputStage" inner]) ∧
    (∀ projection child inner, generateExplain m child = Except.ok inner →
      generateExplain m (ABT.EvaluationNode nid projection child) =
        Except.ok [BSONField.str "stage" "EVALUATION",
                   BSONField.int "planNodeId" props.planNodeId,
                   BSONField.str "projections" "<todo>",
                   BSONField.str "cardinalityEstimate" "<todo>",
                   BSONField.obj "inputStage" inner]) ∧
    (∀ ord, generateExplain m (ABT.PhysicalScanNode nid ord) =
        Except.ok [BSONField.str "stage" "COLLSCAN",
                   BSONField.int "planNodeId" props.planNodeId,
                   BSONField.str "direction" (scanDirString ord),
                   BSONField.str "projections" "<todo>",
                   BSONField.str "cardinalityEstimate" "<todo>"]) := by
  refine ⟨?_, ?_, ?_, ?_⟩ <;> intros <;> simp_all [generateExplain]

/-- C2 counterexample: the claim's field list for a Physical-Scan stage is
stage name, plan-node id and direction only; the code also emits the
"projections" and "cardinalityEstimate" placeholders, so the field set is not
the claimed one. -/
theorem c2_cex :
    (generateExplain demoMap (ABT.PhysicalScanNode 3 ScanOrder.Forward)).map
        (fun doc => doc.map fieldName) =
      Except.ok ["stage", "planNodeId", "direction", "projections",
                 "cardinalityEstimate"] ∧
    (["stage", "planNodeId", "direction", "projections", "cardinalityEstimate"]
      : List String) ≠ ["stage", "planNodeId", "direction"] :=
  ⟨rfl, by decide⟩

/-- C2 witness: the four stage layouts at a concrete map entry. -/
theorem c2_witness :
    (∀ child inner, generateExplain demoMap child = Except.ok inner →
      generateExplain demoMap (ABT.RootNode 2 child) =
        Except.ok [BSONField.str "stage" "ROOT",
                   BSONField.str "projections" "<todo>",
                   BSONField.str "cardinalityEstimate" "<todo>",
                   BSONField.dbl "costEstimate" (20 : Int),
                   BSONField.obj "inputStage" inner]) ∧
    (∀ pred child inner, generateExplain demoMap child = Except.ok inner →
      generateExplain demoMap (ABT.FilterNode 2 pred child) =
        Except.ok [BSONField.str "stage" "FILTER",
                   BSONField.int "planNodeId" (2 : Int),
                   BSONField.str "filter" "<todo>",
                   BSONField.str "cardinalityEstimate" "<todo>",
                   BSONField.obj "inputStage" inner]) ∧
    (∀ projection child inner, generateExplain demoMap child = Except.ok inner →
      generateExplain demoMap (ABT.EvaluationNode 2 projection child) =
        Except.ok [BSONField.str "stage" "EVALUATION",
                   BSONField.int "planNodeId" (2 : Int),
                   BSONField.str "projections" "<todo>",
                   BSONField.str "cardinalityEstimate" "<todo>",
                   BSONField.obj "inputStage" inner]) ∧
    (∀ ord, generateExplain demoMap (ABT.PhysicalScanNode 2 ord) =
        Except.ok [BSONField.str "stage" "COLLSCAN",
                   BSONField.int "planNodeId" (2 : Int),
                   BSONField.str "direction" (scanDirString ord),
                   BSONField.str "projections" "<todo>",
                   BSONField.str "cardinalityEstimate" "<todo>"]) :=
  c2_stage_fields demoMap 2 ⟨2, 20⟩ rfl

/-- C8: on the non-EOF path an empty walk result would be converted into the
internal-consistency fatal condition 8075604 rather than returned, and in
fact every document the walk — and hence `explain` — produces on this path is
non-empty. -/
theorem c8_nonempty_output (m : NodeToGroupPropsMap) (t : ABT)
    (h : isEOFPlan t = some false) :
    (∀ doc, generateExplain m t = Except.ok doc → doc ≠ []) ∧
    (∀ doc, generateExplain m t = Except.ok doc → doc.isEmpty = true →
      explain m t = ExplainResult.fatal 8075604) ∧
    (∀ doc, explain m t = ExplainResult.ok doc → doc ≠ []) := by
  refine ⟨fun doc hd => generateExplain_ok_ne_nil m t doc hd, ?_, ?_⟩
  · intro doc hd he
    simp [explain, h, explainWalkPath, hd, he]
  · intro doc hd
    have hw : explainWalkPath m t = ExplainResult.ok doc := by
      simpa [explain, h] using hd
    rcases hgen : generateExplain m t with c | d
    · simp [explainWalkPath, hgen] at hw
    · have hne := generateExplain_ok_ne_nil m t d hgen
      have hde : d.isEmpty = false := by
        cases d with
        | nil => exact absurd rfl hne
        | cons a l => rfl
      simp [explainWalkPath, hgen, hde] at hw
      rw [← hw]
      exact hne

/-- C8 witness: a concrete non-EOF tree whose walk succeeds. -/
theorem c8_witness :
    (∀ doc, generateExplain demoMap
        (ABT.RootNode 1 (ABT.PhysicalScanNode 2 ScanOrder.Forward)) =
          Except.ok doc → doc ≠ []) ∧
    (∀ doc, generateExplain demoMap
        (ABT.RootNode 1 (ABT.PhysicalScanNode 2 ScanOrder.Forward)) =
          Except.ok doc → doc.isEmpty = true →
      explain demoMap (ABT.RootNode 1 (ABT.PhysicalScanNode 2 ScanOrder.Forward)) =
        ExplainResult.fatal 8075604) ∧
    (∀ doc, explain demoMap
        (ABT.RootNode 1 (ABT.PhysicalScanNode 2 ScanOrder.Forward)) =
          ExplainResult.ok doc → doc ≠ []) :=
  c8_nonempty_output demoMap
    (ABT.RootNode 1 (ABT.PhysicalScanNode 2 ScanOrder.Forward)) (by decide)

/-- C4: for every supported single-child chain — a Root over `mids.length`
Filter/Evaluation stages terminating in a Physical-Scan, so n = mids.length+1
nodes below the Root — with every node present in the property map, the
output document has exactly n nested `"inputStage"` sub-documents (one can
descend through an input stage at every level below n but not at n), and the
innermost one is the COLLSCAN stage document, which contains no
`"inputStage"` field. -/
theorem c4_chain_nesting (m : NodeToGroupPropsMap) (rnid : Nat) (rp : NodeProps)
    (mids : List MidStage) (snid : Nat) (ord : ScanOrder) (sp : NodeProps)
    (hr : m rnid = some rp) (hmids : ∀ s ∈ mids, (m (midNid s)).isSome)
    (hs : m snid = some sp) :
    ∃ doc, generateExplain m (ABT.RootNode rnid
        (buildChain mids (ABT.PhysicalScanNode snid ord))) = Except.ok doc ∧
      (∀ k, k < mids.length + 1 → (findInput (descend k doc)).isSome = true) ∧
      findInput (descend (mids.length + 1) doc) = none ∧
      descend (mids.length + 1) doc =
        [BSONField.str "stage" "COLLSCAN",
         BSONField.int "planNodeId" sp.planNodeId,
         BSONField.str "direction" (scanDirString ord),
         BSONField.str "projections" "<todo>",
         BSONField.str "cardinalityEstimate" "<todo>"] ∧
      hasField "inputStage" (descend (mids.length + 1) doc) = false := by
  obtain ⟨cdoc, hcdoc, hfind, hlast⟩ := chain_walk m snid ord sp hs mids hmids
  refine ⟨[BSONField.str "stage" "ROOT",
           BSONField.str "projections" "<todo>",
           BSONField.str "cardinalityEstimate" "<todo>",
           BSONField.dbl "costEstimate" rp.cost,
           BSONField.obj "inputStage" cdoc], ?_, ?_, ?_, ?_, ?_⟩
  · simp [generateExplain, hr, hcdoc]
  · intro k hk
    cases k with
    | zero => simp
    | succ j =>
      rw [descend_succ_of_findInput j _ cdoc (by simp)]
      exact hfind j (Nat.lt_of_succ_lt_succ hk)
  · rw [descend_succ_of_findInput mids.length _ cdoc (by simp), hlast]
    rfl
  · rw [descend_succ_of_findInput mids.length _ cdoc (by simp)]
    exact hlast
  · rw [descend_succ_of_findInput mids.length _ cdoc (by simp), hlast]
    rfl

/-- C4 witness: a Root → Filter → Evaluation → Physical-Scan chain (n = 3). -/
theorem c4_witness :
    ∃ doc, generateExplain demoMap (ABT.RootNode 1
        (buildChain [MidStage.filterStage 2 (ABTExpr.otherExpr 0),
                     MidStage.evalStage 3 (ABTExpr.otherExpr 1)]
          (ABT.PhysicalScanNode 4 ScanOrder.Forward))) = Except.ok doc ∧
      (∀ k, k < 3 → (findInput (descend k doc)).isSome = true) ∧
      findInput (descend 3 doc) = none ∧
      descend 3 doc =
        [BSONField.str "stage" "COLLSCAN",
         BSONField.int "planNodeId" (4 : Int),
         BSONField.str "direction" (scanDirString ScanOrder.Forward),
         BSONField.str "projections" "<todo>",
         BSONField.str "cardinalityEstimate" "<todo>"] ∧
      hasField "inputStage" (descend 3 doc) = false :=
  c4_chain_nesting demoMap 1 ⟨1, 10⟩
    [MidStage.filterStage 2 (ABTExpr.otherExpr 0),
     MidStage.evalStage 3 (ABTExpr.otherExpr 1)]
    4 ScanOrder.Forward ⟨4, 40⟩ rfl (by decide) rfl

/-- C6 (amended): on a tree all of whose nodes are supported variants — so
the walk visits every reachable node — if some reachable node has no record
in the property map, the walk aborts with one of the four missing-property
fatal conditions (8075600–8075603), returning no document at all; conversely
when every node has a record the walk completes with a document and the
missing-property branch is never taken.  (As stated the claim is refuted by
`c6_cex`: when an unsupported variant sits above the record-less supported
node, the walk aborts with the unsupported-variant condition instead.) -/
theorem c6_missing_property (m : NodeToGroupPropsMap) (t : ABT)
    (hsup : allSupported t = true) :
    (allHaveProps m t = false →
      ∃ c, generateExplain m t = Except.error c ∧
        (c = 8075600 ∨ c = 8075601 ∨ c = 8075602 ∨ c = 8075603)) ∧
    (allHaveProps m t = true → ∃ doc, generateExplain m t = Except.ok doc) := by
  induction t with
  | RootNode n c ih =>
    simp only [allSupported] at hsup
    obtain ⟨ih1, ih2⟩ := ih hsup
    constructor
    · intro hmiss
      rcases hm : m n with _ | props
      · exact ⟨8075600, by simp [generateExplain, hm], Or.inl rfl⟩
      · have hcmiss : allHaveProps m c = false := by
          simpa [allHaveProps, hm] using hmiss
        obtain ⟨cc, hcc, hcodes⟩ := ih1 hcmiss
        exact ⟨cc, by simp [generateExplain, hm, hcc], hcodes⟩
    · intro hall
      have h2 : (m n).isSome = true ∧ allHaveProps m c = true := by
        simpa [allHaveProps] using hall
      obtain ⟨props, hp⟩ := Option.isSome_iff_exists.mp h2.1
      obtain ⟨doc, hdoc⟩ := ih2 h2.2
      exact ⟨[BSONField.str "stage" "ROOT",
              BSONField.str "projections" "<todo>",
              BSONField.str "cardinalityEstimate" "<todo>",
              BSONField.dbl "costEstimate" props.cost,
              BSONField.obj "inputStage" doc],
        by simp [generateExplain, hp, hdoc]⟩
  | FilterNode n p c ih =>
    simp only [allSupported] at hsup
    obtain ⟨ih1, ih2⟩ := ih hsup
    constructor
    · intro hmiss
      rcases hm : m n with _ | props
      · exact ⟨8075601, by simp [generateExplain, hm], Or.inr (Or.inl rfl)⟩
      · have hcmiss : allHaveProps m c = false := by
          simpa [allHaveProps, hm] using hmiss
        obtain ⟨cc, hcc, hcodes⟩ := ih1 hcmiss
        exact ⟨cc, by simp [generateExplain, hm, hcc], hcodes⟩
    · intro hall
      have h2 : (m n).isSome = true ∧ allHaveProps m c = true := by
        simpa [allHaveProps] using hall
      obtain ⟨props, hp⟩ := Option.isSome_iff_exists.mp h2.1
      obtain ⟨doc, hdoc⟩ := ih2 h2.2
      exact ⟨[BSONField.str "stage" "FILTER",
              BSONField.int "planNodeId" props.planNodeId,
              BSONField.str "filter" "<todo>",
              BSONField.str "cardinalityEstimate" "<todo>",
              BSONField.obj "inputStage" doc],
        by simp [generateExplain, hp, hdoc]⟩
  | EvaluationNode n p c ih =>
    simp only [allSupported] at hsup
    obtain ⟨ih1, ih2⟩ := ih hsup
    constructor
    · intro hmiss
      rcases hm : m n with _ | props
      · exact ⟨8075602, by simp [generateExplain, hm], Or.inr (Or.inr (Or.inl rfl))⟩
      · have hcmiss : allHaveProps m c = false := by
          simpa [allHaveProps, hm] using hmiss
        obtain ⟨cc, hcc, hcodes⟩ := ih1 hcmiss
        exact ⟨cc, by simp [generateExplain, hm, hcc], hcodes⟩
    · intro hall
      have h2 : (m n).isSome = true ∧ allHaveProps m c = true := by
        simpa [allHaveProps] using hall
      obtain ⟨props, hp⟩ := Option.isSome_iff_exists.mp h2.1
      obtain ⟨doc, hdoc⟩ := ih2 h2.2
      exact ⟨[BSONField.str "stage" "EVALUATION",
              BSONField.int "planNodeId" props.planNodeId,
              BSONField.str "projections" "<todo>",
              BSONField.str "cardinalityEstimate" "<todo>",
              BSONField.obj "inputStage" doc],
        by simp [generateExplain, hp, hdoc]⟩
  | PhysicalScanNode n ord =>
    constructor
    · intro hmiss
      rcases hm : m n with _ | props
      · exact ⟨8075603, by simp [generateExplain, hm], Or.inr (Or.inr (Or.inr rfl))⟩
      · simp [allHaveProps, hm] at hmiss
    · intro hall
      simp only [allHaveProps] at hall
      obtain ⟨props, hp⟩ := Option.isSome_iff_exists.mp hall
      exact ⟨[BSONField.str "stage" "COLLSCAN",
              BSONField.int "planNodeId" props.planNodeId,
              BSONField.str "direction" (scanDirString ord),
              BSONField.str "projections" "<todo>",
              BSONField.str "cardinalityEstimate" "<todo>"],
        by simp [generateExplain, hp]⟩
  | LimitSkipNode n l s c ih => simp [allSupported] at hsup
  | CoScanNode n => simp [allSupported] at hsup
  | UnsupportedNode n tg => simp [allSupported] at hsup

/-- C6 counterexample: this tree contains a reachable supported node (the
Filter, identity 3) with no record, yet the visitor aborts with the
unsupported-variant condition 8075606 — not the missing-property condition —
because the record of the unsupported Limit-Skip above it is dispatched
first. -/
theorem c6_cex :
    allSupported (ABT.FilterNode 3 (ABTExpr.otherExpr 0)
      (ABT.PhysicalScanNode 4 ScanOrder.Forward)) = true ∧
    rootOnlyMap 3 = none ∧
    generateExplain rootOnlyMap (ABT.RootNode 1 (ABT.LimitSkipNode 2 5 5
      (ABT.FilterNode 3 (ABTExpr.otherExpr 0)
        (ABT.PhysicalScanNode 4 ScanOrder.Forward)))) = Except.error 8075606 ∧
    ¬(8075606 = 8075600 ∨ 8075606 = 8075601 ∨ 8075606 = 8075602 ∨
      8075606 = 8075603) :=
  ⟨rfl, rfl, rfl, by decide⟩

/-- C6 witness: a fully supported Root → Filter → Physical-Scan tree over a
map that misses the Filter and Scan records. -/
theorem c6_witness :
    (allHaveProps rootOnlyMap (ABT.RootNode 1 (ABT.FilterNode 2
        (ABTExpr.otherExpr 0) (ABT.PhysicalScanNode 3 ScanOrder.Forward))) =
      false →
      ∃ c, generateExplain rootOnlyMap (ABT.RootNode 1 (ABT.FilterNode 2
          (ABTExpr.otherExpr 0) (ABT.PhysicalScanNode 3 ScanOrder.Forward))) =
        Except.error c ∧
        (c = 8075600 ∨ c = 8075601 ∨ c = 8075602 ∨ c = 8075603)) ∧
    (allHaveProps rootOnlyMap (ABT.RootNode 1 (ABT.FilterNode 2
        (ABTExpr.otherExpr 0) (ABT.PhysicalScanNode 3 ScanOrder.Forward))) =
      true →
      ∃ doc, generateExplain rootOnlyMap (ABT.RootNode 1 (ABT.FilterNode 2
          (ABTExpr.otherExpr 0) (ABT.PhysicalScanNode 3 ScanOrder.Forward))) =
        Except.ok doc) :=
  c6_missing_property rootOnlyMap
    (ABT.RootNode 1 (ABT.FilterNode 2 (ABTExpr.otherExpr 0)
      (ABT.PhysicalScanNode 3 ScanOrder.Forward))) (by decide)

/-- C7 (amended): whenever the walk actually reaches a node whose variant is
not in the supported set — every supported stage above it on the spine has a
record, so no earlier tassert fires — the dispatch falls into the variadic
default case and aborts with the unsupported-variant condition 8075606,
emitting no document; the node is never silently skipped.  (As stated the
claim is refuted by `c7_cex`: a missing record above the unsupported node
makes the walk abort with the missing-property condition instead.) -/
theorem c7_unsupported_variant (m : NodeToGroupPropsMap) (rnid : Nat)
    (rp : NodeProps) (mids : List MidStage) (u : ABT)
    (hu : headSupported u = false) (hr : m rnid = some rp)
    (hmids : ∀ s ∈ mids, (m (midNid s)).isSome) :
    generateExplain m (ABT.RootNode rnid (buildChain mids u)) =
      Except.error 8075606 := by
  simp [generateExplain, hr, chain_unsupported m u hu mids hmids]

/-- C7 counterexample: this tree contains an unsupported node (the
Limit-Skip, identity 2), yet the walk aborts with the missing-property
condition 8075600 of the Root above it, not the unsupported-variant
condition. -/
theorem c7_cex :
    headSupported (ABT.LimitSkipNode 2 0 0 (ABT.CoScanNode 3)) = false ∧
    generateExplain emptyMap (ABT.RootNode 1
      (ABT.LimitSkipNode 2 0 0 (ABT.CoScanNode 3))) = Except.error 8075600 ∧
    (8075600 : Nat) ≠ 8075606 :=
  ⟨rfl, rfl, by decide⟩

/-- C7 witness: a Root (with a record) directly over a Generate-Empty node. -/
theorem c7_witness :
    generateExplain demoMap (ABT.RootNode 1 (ABT.CoScanNode 5)) =
      Except.error 8075606 :=
  c7_unsupported_variant demoMap 1 ⟨1, 10⟩ [] (ABT.CoScanNode 5) rfl rfl
    (by decide)

end MongoOpt
